import Mathlib

/-!
# Mapping-GitHub-Community front end: fetch client and search orchestrator

A shallow embedding of `frontend/src/utils/api.js` (`fetchGraph`),
`frontend/src/App.js` (`formatErrorMessage`, `handleSearch`),
`frontend/src/components/SearchPanel.js` (`handleSubmit`) and the conditional
rendering of `frontend/src/components/GraphView.js`.

Modelling conventions.

* A JavaScript string is a Lean `String`, a sequence of Unicode characters.
  `length` and `substring` count UTF-16 code units: a character from `U+10000`
  on takes two. When `substring` cuts between the two units of one character
  JavaScript keeps a lone surrogate, which no Lean `Char` can be; `U+FFFD`
  stands for it (`loneHalf`).
* A parsed JSON number is given by an integer literal (`Int`) and stands for the
  double nearest to it; numbers with a fraction are not modelled. The program
  tests numbers for being zero and converts them to text (`numberToString`).
* `undefined` is `none` in an `Option`, every other value is a `JVal`.
* The network is an input: `fetchGraph` receives what `fetch` settled to, and a
  `Response` records what its `json()` call settles to and the text of its
  body. A body is read once: `text()` after `json()` rejects.
-/

namespace GraphApp

/-! ## Strings -/

/-- Whether `p` occurs as a contiguous block of `s` (on character lists). -/
def isInfix (p : List Char) : List Char → Bool
  | [] => p.isEmpty
  | c :: cs => p.isPrefixOf (c :: cs) || isInfix p cs

/-- `s.includes(p)`. -/
def includes (s p : String) : Bool := isInfix p.data s.data

/-- Lower-casing of one character. ASCII capitals go to their small letters;
`U+0130` and `U+212A` (Kelvin sign) are the only other characters whose
lower-case form contains an ASCII letter. Every other character is kept: the
program only searches lower-cased text for ASCII phrases. -/
def lowerChar (c : Char) : List Char :=
  if c.toNat = 0x0130 then ['i', Char.ofNat 0x0307]
  else if c.toNat = 0x212A then ['k']
  else [c.toLower]

/-- `s.toLowerCase()`. -/
def toLowerCase (s : String) : String := ⟨(s.data.map lowerChar).flatten⟩

/-- The number of UTF-16 code units of one character. -/
def unitsOf (c : Char) : Nat := if c.toNat < 0x10000 then 1 else 2

/-- The number of UTF-16 code units of a character list. -/
def unitCount : List Char → Nat
  | [] => 0
  | c :: cs => unitsOf c + unitCount cs

/-- `s.length`: the number of UTF-16 code units of `s`. -/
def utf16Length (s : String) : Nat := unitCount s.data

/-- Stand-in for the first unit of a two-unit character that was cut from its
second unit, a lone surrogate in JavaScript. -/
def loneHalf : Char := Char.ofNat 0xFFFD

/-- The first `n` UTF-16 code units of a character list. -/
def takeUnits : Nat → List Char → List Char
  | 0, _ => []
  | _ + 1, [] => []
  | n + 1, c :: cs =>
    if c.toNat < 0x10000 then c :: takeUnits n cs
    else if n = 0 then [loneHalf]
    else c :: takeUnits (n - 1) cs

/-- `s.substring(0, n)`. -/
def substring0 (s : String) (n : Nat) : String := ⟨takeUnits n s.data⟩

/-- White space and line terminators, the characters `String.prototype.trim`
strips. -/
def isTrimChar (c : Char) : Bool :=
  let n := c.toNat
  n = 0x09 || n = 0x0A || n = 0x0B || n = 0x0C || n = 0x0D || n = 0x20 ||
  n = 0xA0 || n = 0x1680 || (0x2000 ≤ n && n ≤ 0x200A) || n = 0x2028 ||
  n = 0x2029 || n = 0x202F || n = 0x205F || n = 0x3000 || n = 0xFEFF

/-- `s.trim()`. -/
def trim (s : String) : String :=
  ⟨((s.data.dropWhile isTrimChar).reverse.dropWhile isTrimChar).reverse⟩

/-! ## JSON values -/

/-- A value produced by `JSON.parse`. An object keeps its members in source
order; a repeated key is read at its last occurrence. -/
inductive JVal where
  | null
  | bool (b : Bool)
  | num (n : Int)
  | str (s : String)
  | arr (xs : List JVal)
  | obj (kvs : List (String × JVal))

/-- JavaScript truthiness of a JSON value. -/
def truthy : JVal → Bool
  | .null => false
  | .bool b => b
  | .num n => n != 0
  | .str s => s != ""
  | .arr _ => true
  | .obj _ => true

/-- Truthiness of a value that may be `undefined`. -/
def truthyOpt : Option JVal → Bool
  | none => false
  | some v => truthy v

/-- Last member named `k` of a member list. -/
def lookupLast (k : String) : List (String × JVal) → Option JVal
  | [] => none
  | (k', v) :: rest =>
    match lookupLast k rest with
    | some w => some w
    | none => if k' = k then some v else none

/-- Property read `v.k` on a non-null value, for the property names the program
uses (`detail`, `message`, `error`, `nodes`, `links`, `edges`, `node_list`,
`edge_list`, `length`, `toString`): an object yields its own member, an array
or string has `length`, anything else is `undefined`. -/
def getProp (v : JVal) (k : String) : Option JVal :=
  match v with
  | .obj kvs => lookupLast k kvs
  | .arr xs => if k = "length" then some (.num xs.length) else none
  | .str s => if k = "length" then some (.num (utf16Length s)) else none
  | _ => none

/-- `a || b` where both sides may be `undefined`. -/
def orElse (a b : Option JVal) : Option JVal :=
  if truthyOpt a then a else b

/-- `a || b` where `b` is defined. -/
def orDefault (a : Option JVal) (b : JVal) : JVal :=
  match a with
  | some v => if truthy v then v else b
  | none => b

/-- Number of binary digits of `n`, found by halving at most `fuel` times. -/
def bitLength : Nat → Nat → Nat
  | 0, _ => 0
  | fuel + 1, n => if n = 0 then 0 else bitLength fuel (n / 2) + 1

/-- The double nearest to the natural number `n`, ties going to the even
significand: `some d` with `d` its value, `none` when it is `Infinity`. -/
def roundToDouble (n : Nat) : Option Nat :=
  let bits := bitLength n n
  if bits ≤ 53 then some n
  else if 1024 < bits then none
  else
    let ulp := 2 ^ (bits - 53)
    let q := n / ulp
    let rest := n % ulp
    let up := decide (ulp < 2 * rest) || (decide (2 * rest = ulp) && q % 2 == 1)
    let q' := if up then q + 1 else q
    if bits = 1024 ∧ q' = 2 ^ 53 then none else some (q' * ulp)

/-- The decimal number with `k` significant digits that reads back as the
double `d`, if there is one: the one nearest to `d`, the even one on a tie. -/
def shortestWith (d k : Nat) : Option Nat :=
  let step := 10 ^ ((Nat.toDigits 10 d).length - k)
  let lo := d / step * step
  let hi := (d / step + 1) * step
  let okLo := roundToDouble lo == some d
  let okHi := roundToDouble hi == some d
  if okLo && okHi then
    if d - lo < hi - d then some lo
    else if hi - d < d - lo then some hi
    else if (d / step) % 2 == 0 then some lo else some hi
  else if okLo then some lo
  else if okHi then some hi
  else none

/-- Search for the least number of significant digits, from `k` upwards. -/
def shortestFrom (d : Nat) : Nat → Nat → Nat
  | 0, _ => d
  | fuel + 1, k =>
    match shortestWith d k with
    | some v => v
    | none => shortestFrom d fuel (k + 1)

/-- The decimal number with the fewest significant digits that reads back as
the double `d`; 17 digits always suffice. -/
def shortestDecimal (d : Nat) : Nat := shortestFrom d 17 1

/-- The text of a natural number in `Number.prototype.toString`: all digits up
to 21 of them, the exponent form from 22 digits on. -/
def renderDecimal (v : Nat) : String :=
  let digits := Nat.toDigits 10 v
  if digits.length ≤ 21 then ⟨digits⟩
  else
    let expo := toString (digits.length - 1)
    match (digits.reverse.dropWhile (fun c => c == '0')).reverse with
    | [] => "0"
    | [c] => ⟨[c]⟩ ++ "e+" ++ expo
    | c :: rest => ⟨c :: '.' :: rest⟩ ++ "e+" ++ expo

/-- String conversion of the number given by the integer literal `n`: the
literal is rounded to a double, which is printed with the fewest digits that
identify it. -/
def numberToString (n : Int) : String :=
  match roundToDouble n.natAbs with
  | none => if n < 0 then "-Infinity" else "Infinity"
  | some d => (if n < 0 then "-" else "") ++ renderDecimal (shortestDecimal d)

mutual
/-- String conversion of a value; `none` when the conversion throws a
`TypeError`, which happens for an object whose own member `toString` shadows
the inherited method. -/
def jsToString : JVal → Option String
  | .null => some "null"
  | .bool true => some "true"
  | .bool false => some "false"
  | .num n => some (numberToString n)
  | .str s => some s
  | .arr xs => joinElems xs
  | .obj kvs =>
    match lookupLast "toString" kvs with
    | some _ => none
    | none => some "[object Object]"
/-- `Array.prototype.join` with the separator `,`: a `null` element gives the
empty string. -/
def joinElems : List JVal → Option String
  | [] => some ""
  | [x] =>
    match x with
    | .null => some ""
    | _ => jsToString x
  | x :: y :: rest =>
    let first := match x with
      | .null => some ""
      | _ => jsToString x
    match first, joinElems (y :: rest) with
    | some a, some b => some (a ++ "," ++ b)
    | _, _ => none
end

/-! ## Fetch client (`utils/api.js`) -/

/-- A thrown error object: its `name` and `message`. -/
structure JSError where
  name : String
  message : String

/-- `new Error(msg)` for a string `msg`. -/
def mkError (msg : String) : JSError := ⟨"Error", msg⟩

/-- What the `Response` object of a settled `fetch` offers to `fetchGraph`.
`json` is what `response.json()` settles to (`none`: it rejects, the body is not
JSON); `text` is the body as text, what `response.text()` settles to when it is
the first to read the body (`none`: the body cannot be read). -/
structure Response where
  status : Nat
  statusText : String
  json : Option JVal
  text : Option String

/-- `response.ok`: the status is in the range 200-299. -/
def Response.ok (r : Response) : Bool := 200 ≤ r.status && r.status ≤ 299

/-- What `await fetch(url, ...)` settles to: a rejection or a response. -/
inductive FetchResult where
  | rejected (e : JSError)
  | resolved (r : Response)

/-- The graph handed to the rendering component: `{nodes, links}`. -/
structure Payload where
  nodes : JVal
  links : JVal

/-- How a call of `fetchGraph` ends: it returns a payload or throws. -/
inductive Outcome where
  | ok (p : Payload)
  | error (e : JSError)

/-- Line 26: the generic message `Server error: <status> <statusText>`. -/
def serverErrorMessage (r : Response) : String :=
  "Server error: " ++ toString r.status ++ " " ++ r.statusText

/-- Line 37, `response.text()` on the response whose body `response.json()`
has read before: a body can be read once, so the call rejects (`none`) whatever
the text is; only a response without any body still answers, with the empty
text. -/
def textAfterJson (r : Response) : Option String :=
  match r.text with
  | some "" => some ""
  | _ => none

/-- Lines 36-43: the message after `response.json()` rejected or the property
read on its result threw. -/
def textFallback (r : Response) : JVal :=
  match textAfterJson r with
  | some errorText =>
    if errorText != "" then .str (substring0 errorText 200)
    else .str (serverErrorMessage r)
  | none => .str (serverErrorMessage r)

/-- Lines 26-44: the value of `errorMessage` when line 46 is reached. Reading a
property of `null` throws inside the `try`, so a `null` body takes the `catch`
of line 34 like an unparseable one. -/
def errorMessage (r : Response) : JVal :=
  match r.json with
  | none => textFallback r
  | some .null => textFallback r
  | some errorData =>
    let picked := orElse (orElse (getProp errorData "detail") (getProp errorData "message"))
      (getProp errorData "error")
    if truthyOpt picked then orDefault picked (.str (serverErrorMessage r))
    else .str (serverErrorMessage r)

/-- The message of the `TypeError` a failed string conversion throws (the
wording of V8). -/
def cannotConvertMessage : String := "Cannot convert object to primitive value"

/-- Line 46, `throw new Error(errorMessage)`: the error that is thrown. The
constructor converts its argument to a string; when that conversion throws, the
`TypeError` is what leaves the statement. -/
def newError (v : JVal) : JSError :=
  match jsToString v with
  | some s => mkError s
  | none => ⟨"TypeError", cannotConvertMessage⟩

def invalidResponseMessage : String :=
  "Invalid response format: Server did not return valid JSON"

def noDataMessage : String :=
  "No data found for this username. The user may not exist or have no connections."

def emptyGraphMessage : String :=
  "Received empty graph data. No nodes or links found."

def networkErrorMessage : String :=
  "Network error: Could not connect to the server. Please check if the backend is running."

def cancelledMessage : String := "Request was cancelled."

def unexpectedMessage : String :=
  "An unexpected error occurred while fetching graph data."

/-- `Array.isArray(v)`. -/
def isArray : JVal → Bool
  | .arr _ => true
  | _ => false

/-- `v.length === 0` for a value `v` that may be `undefined` but is not
`null`. -/
def lengthIsZero : Option JVal → Bool
  | none => false
  | some v =>
    match getProp v "length" with
    | some (.num n) => n == 0
    | _ => false

/-- Lines 64-80, the shape normalization on the parsed body: the values of
`nodes` and `links` afterwards. `none` on `null`, where the property read of
line 67 throws. -/
def normalize (data : JVal) : Option (Option JVal × Option JVal) :=
  match data with
  | .null => none
  | _ =>
    if truthyOpt (getProp data "nodes") && truthyOpt (getProp data "links") then
      some (getProp data "nodes", getProp data "links")
    else if truthyOpt (getProp data "nodes") && truthyOpt (getProp data "edges") then
      some (getProp data "nodes", getProp data "edges")
    else if isArray data then
      some (some (.arr []), some data)
    else
      some (some (orDefault (orElse (getProp data "nodes") (getProp data "node_list")) (.arr [])),
        some (orDefault (orElse (orElse (getProp data "links") (getProp data "edges"))
          (getProp data "edge_list")) (.arr [])))

/-- Line 83: `!v || v.length === 0`. -/
def isBlank (v : Option JVal) : Bool :=
  !truthyOpt v || lengthIsZero v

/-- The message of the `TypeError` thrown by a property read on `null` (the
wording of V8). -/
def nullReadMessage : String := "Cannot read properties of null (reading 'nodes')"

/-- Lines 17-92, the body of the outer `try` once `fetch` has resolved: the
returned payload, or the error thrown on the way. -/
def tryBody (r : Response) : Except JSError Payload :=
  if !r.ok then .error (newError (errorMessage r))
  else
    match r.json with
    | none => .error (mkError invalidResponseMessage)
    | some data =>
      if !truthy data || (isArray data && lengthIsZero (some data)) then
        .error (mkError noDataMessage)
      else
        match normalize data with
        | none => .error ⟨"TypeError", nullReadMessage⟩
        | some (nodes, links) =>
          if isBlank nodes && isBlank links then .error (mkError emptyGraphMessage)
          else .ok ⟨orDefault nodes (.arr []), orDefault links (.arr [])⟩

/-- Lines 94-112, the outer `catch`: the error that leaves `fetchGraph` for an
error `e` caught there. -/
def catchHandler (e : JSError) : JSError :=
  if e.name = "TypeError" && includes e.message "fetch" then mkError networkErrorMessage
  else if e.name = "AbortError" then mkError cancelledMessage
  else if e.message ≠ "" then e
  else mkError unexpectedMessage

/-- `fetchGraph(username)`, as a function of what the request for that
username settled to. -/
def fetchGraph (f : FetchResult) : Outcome :=
  let attempt : Except JSError Payload :=
    match f with
    | .rejected e => .error e
    | .resolved r => tryBody r
  match attempt with
  | .ok p => .ok p
  | .error e => .error (catchHandler e)

/-! ## Orchestrator (`App.js`) -/

def somethingWrong : String := "Something went wrong. Please try again."

def unableToConnect : String :=
  "Unable to connect to the server. Please check if the backend is running on port 8000."

def noConnections : String :=
  "No community connections found for this username. The user may not exist or have no public connections."

def unexpectedResponse : String :=
  "The server returned an unexpected response. Please try again later."

def userNotFound : String :=
  "User not found. Please check the GitHub username and try again."

def serverEncountered : String :=
  "Server encountered an error. Please try again in a moment."

def tooManyRequests : String :=
  "Too many requests. Please wait a moment before trying again."

def githubApiError : String :=
  "GitHub API error. The user may be private or the request was rejected."

/-- `formatErrorMessage(errorMessage)` of `App.js`, lines 19-66. -/
def formatErrorMessage (errorMessage : String) : String :=
  if errorMessage = "" then somethingWrong
  else if includes (toLowerCase errorMessage) "network" ||
      includes (toLowerCase errorMessage) "could not connect" then unableToConnect
  else if includes (toLowerCase errorMessage) "no data" ||
      includes (toLowerCase errorMessage) "empty" then noConnections
  else if includes (toLowerCase errorMessage) "invalid response" ||
      includes (toLowerCase errorMessage) "json" then unexpectedResponse
  else if includes (toLowerCase errorMessage) "server error" ||
      includes (toLowerCase errorMessage) "500" ||
      includes (toLowerCase errorMessage) "404" then
    if includes errorMessage "404" then userNotFound else serverEncountered
  else if includes (toLowerCase errorMessage) "rate limit" ||
      includes (toLowerCase errorMessage) "429" then tooManyRequests
  else if includes (toLowerCase errorMessage) "github" ||
      includes (toLowerCase errorMessage) "api" then githubApiError
  else if utf16Length errorMessage > 100 then substring0 errorMessage 100 ++ "..."
  else errorMessage

/-- The four state variables of `App`. -/
structure AppState where
  graphData : Option Payload
  error : Option String
  loading : Bool
  hasSearched : Bool

/-- The state `App` starts in. -/
def initialState : AppState := ⟨none, none, false, false⟩

/-- Lines 77-80: the state updates at the start of `handleSearch`. -/
def startSearch (_s : AppState) : AppState :=
  { graphData := none, error := none, loading := true, hasSearched := true }

/-- Line 91: `err.message || 'An error occurred while fetching data'`. -/
def caughtMessage (e : JSError) : String :=
  if e.message ≠ "" then e.message else "An error occurred while fetching data"

/-- Lines 84-97: the state updates once `fetchGraph` has settled to `o`. -/
def resolveSearch (s : AppState) (o : Outcome) : AppState :=
  match o with
  | .ok data => { s with graphData := some data, error := none, loading := false }
  | .error err =>
    { s with error := some (formatErrorMessage (caughtMessage err)), graphData := none,
             loading := false }

/-- A whole run of `handleSearch` whose request settled to `f`. -/
def handleSearch (s : AppState) (f : FetchResult) : AppState :=
  resolveSearch (startSearch s) (fetchGraph f)

/-- One state change made by `handleSearch`. -/
inductive Step : AppState → AppState → Prop where
  | start (s : AppState) : Step s (startSearch s)
  | success (s : AppState) (data : Payload) : Step s (resolveSearch s (.ok data))
  | failure (s : AppState) (err : JSError) : Step s (resolveSearch s (.error err))

/-- States reachable from the initial one by `handleSearch` steps. -/
inductive Reachable : AppState → Prop where
  | init : Reachable initialState
  | step {s t : AppState} : Reachable s → Step s t → Reachable t

/-! ## Search panel (`SearchPanel.js`) -/

/-- `handleSubmit` of `SearchPanel.js`, lines 14-19: the list of arguments
`onSearch` is called with, for the typed `username` and the `loading` prop. -/
def handleSubmit (username : String) (loading : Bool) : List String :=
  if trim username != "" && !loading then [trim username] else []

/-- The orchestrator state after a submit event: `onSearch` is `handleSearch`,
whose synchronous part runs for each call. -/
def submit (s : AppState) (username : String) : AppState :=
  (handleSubmit username s.loading).foldl (fun st _ => startSearch st) s

/-! ## Graph view (`GraphView.js`) -/

/-- Truthiness of the `error` prop, a string or `null`. -/
def errorSet : Option String → Bool
  | none => false
  | some e => e != ""

/-- Line 214: the loading overlay is rendered. -/
def showsLoading (_graphData : Option Payload) (_error : Option String) (loading : Bool) : Bool :=
  loading

/-- Line 224: the error overlay is rendered. -/
def showsError (_graphData : Option Payload) (error : Option String) (loading : Bool) : Bool :=
  errorSet error && !loading

/-- Line 235: the placeholder is rendered. -/
def showsPlaceholder (graphData : Option Payload) (error : Option String) (loading : Bool) :
    Bool :=
  graphData.isNone && !errorSet error && !loading

/-- `v.length > 0` for a truthy value `v`. A `length` that is not a number is
compared after JavaScript's numeric coercion, which is left to `coerced`. -/
def lengthPositive (coerced : JVal → Bool) (v : JVal) : Bool :=
  match getProp v "length" with
  | none => false
  | some (.num n) => decide (0 < n)
  | some w => coerced w

/-- Line 287: the force graph is rendered. -/
def showsGraph (coerced : JVal → Bool) (graphData : Option Payload) (error : Option String)
    (loading : Bool) : Bool :=
  match graphData with
  | none => false
  | some g => !loading && !errorSet error && truthy g.nodes && lengthPositive coerced g.nodes

/-! ## Vocabulary of the specification -/

/-- The outcome is an empty-result failure: one of the two errors of lines 59
and 84. -/
def EmptyResult (o : Outcome) : Prop :=
  o = .error (mkError noDataMessage) ∨ o = .error (mkError emptyGraphMessage)

/-- A field the body has: its member `k` when that is set to a truthy value.
`null` has no fields. -/
def field (data : JVal) (k : String) : Option JVal :=
  match data with
  | .null => none
  | _ =>
    match getProp data k with
    | some v => if truthy v then some v else none
    | none => none

/-- The first of the named fields that the body has, else the empty sequence
(steps 4 and 5 of the specification's normalization). -/
def firstField (data : JVal) : List String → JVal
  | [] => .arr []
  | k :: ks =>
    match field data k with
    | some v => v
    | none => firstField data ks

/-- The shape normalization as the specification words it (§4.1, steps 1-5),
defined on every parsed body: `nodes` and `links` when the body has both, else
`nodes` and `edges` when it has both, else the body itself as `links` when it
is an array, else the first present of `nodes`/`node_list` and of
`links`/`edges`/`edge_list`; what is absent is the empty sequence. -/
def specNormalize (data : JVal) : Payload :=
  match field data "nodes", field data "links", field data "edges" with
  | some nodes, some links, _ => ⟨nodes, links⟩
  | some nodes, none, some edges => ⟨nodes, edges⟩
  | _, _, _ =>
    if isArray data then ⟨.arr [], data⟩
    else ⟨firstField data ["nodes", "node_list"],
      firstField data ["links", "edges", "edge_list"]⟩

/-- A normalized value is empty: its length is 0. -/
def isEmptySeq (v : JVal) : Bool := lengthIsZero (some v)

/-- The normalized `nodes` and `links` of a body are both empty. -/
def normalizedBothEmpty (data : JVal) : Bool :=
  isEmptySeq (specNormalize data).nodes && isEmptySeq (specNormalize data).links

/-- One rewrite rule as the specification lists them: the phrases that
trigger it and the sentence it gives for a message. -/
structure Rule where
  phrases : List String
  sentence : String → String

/-- A rule fires on a message when one of its phrases occurs in the message,
case-insensitively. -/
def Rule.fires (r : Rule) (m : String) : Bool :=
  r.phrases.any (fun p => includes (toLowerCase m) p)

/-- The six rewrite rules in the priority order of the specification. -/
def specRules : List Rule :=
  [⟨["network", "could not connect"], fun _ => unableToConnect⟩,
   ⟨["no data", "empty"], fun _ => noConnections⟩,
   ⟨["invalid response", "json"], fun _ => unexpectedResponse⟩,
   ⟨["server error", "500", "404"],
     fun m => if includes m "404" then userNotFound else serverEncountered⟩,
   ⟨["rate limit", "429"], fun _ => tooManyRequests⟩,
   ⟨["github", "api"], fun _ => githubApiError⟩]

/-- The rewrite as the specification words it: the first rule that fires
decides; without one the message passes through, cut to 100 characters and
followed by an ellipsis when longer. -/
def specFormat (m : String) : String :=
  match specRules.find? (fun r => r.fires m) with
  | some r => r.sentence m
  | none => if utf16Length m ≤ 100 then m else substring0 m 100 ++ "..."

/-- The test of line 287 on `graphData.nodes`: `nodes && nodes.length > 0`. -/
def nodesDrawable (coerced : JVal → Bool) (nodes : JVal) : Bool :=
  truthy nodes && lengthPositive coerced nodes

/-- The value of `nodes` is an empty sequence or missing (`null`). -/
def nodesEmptyOrMissing : JVal → Bool
  | .null => true
  | .arr [] => true
  | _ => false

/-- How many of the four views of the graph view are rendered. -/
def viewsShown (coerced : JVal → Bool) (graphData : Option Payload) (error : Option String)
    (loading : Bool) : Nat :=
  (showsLoading graphData error loading).toNat + (showsError graphData error loading).toNat +
    (showsPlaceholder graphData error loading).toNat +
    (showsGraph coerced graphData error loading).toNat

/-! ## Auxiliary facts -/

theorem string_eq_of_data {a b : String} (h : a.data = b.data) : a = b := by
  cases a; cases b; simp_all

theorem toLowerCase_data_append (a b : String) :
    (toLowerCase (a ++ b)).data = (toLowerCase a).data ++ (toLowerCase b).data := by
  simp [toLowerCase]

theorem serverErrorMessage_404 (r : Response) (h : r.status = 404) :
    serverErrorMessage r = "Server error: 404 " ++ r.statusText := by
  unfold serverErrorMessage
  rw [h]
  have h404 : toString (404 : Nat) = "404" := by decide
  rw [h404]
  apply string_eq_of_data
  simp

/-- The generic message of a 404 is read as a `404` by `formatErrorMessage`
unless the status text carries a phrase of an earlier rule. -/
theorem formatErrorMessage_generic_404 (st : String)
    (h1 : includes (toLowerCase st) "network" = false)
    (h2 : includes (toLowerCase st) "could not connect" = false)
    (h3 : includes (toLowerCase st) "no data" = false)
    (h4 : includes (toLowerCase st) "empty" = false)
    (h5 : includes (toLowerCase st) "invalid response" = false)
    (h6 : includes (toLowerCase st) "json" = false) :
    formatErrorMessage ("Server error: 404 " ++ st) = userNotFound := by
  have hl : (toLowerCase "Server error: 404 ").data = "server error: 404 ".data := by decide
  have hne : ("Server error: 404 " ++ st) ≠ "" := by
    intro h
    have := congrArg String.data h
    simp at this
  unfold includes at h1 h2 h3 h4 h5 h6
  simp only [formatErrorMessage, includes, toLowerCase_data_append, hl, if_neg hne]
  simp [isInfix, List.isPrefixOf, h1, h2, h3, h4, h5, h6]

theorem catchHandler_mkError (m : String) (h : m ≠ "") :
    catchHandler (mkError m) = mkError m := by
  simp [catchHandler, mkError, h]

theorem fetchGraph_not_ok (r : Response) (h : r.ok = false) :
    fetchGraph (.resolved r) = .error (catchHandler (newError (errorMessage r))) := by
  simp [fetchGraph, tryBody, h]

theorem ok_false_of_404 (r : Response) (h : r.status = 404) : r.ok = false := by
  simp [Response.ok, h]

theorem serverErrorMessage_ne_empty (r : Response) : serverErrorMessage r ≠ "" := by
  intro h
  have := congrArg String.data h
  simp [serverErrorMessage] at this

/-! ## C1: a 404 and the "user not found" sentence -/

/-- C1 (code defect): at the response `404 {"detail":"Not Found"}`, the scenario
of the specification, the stored message is `Not Found` and not the
user-not-found sentence. `formatErrorMessage` turns a 404 into that sentence
only when it reads `404` in the message, and `fetchGraph` has replaced the one
message that carries the status by the `detail` of the body; the same status
with an empty body is stored as the user-not-found sentence. -/
theorem c1_detail_not_found_kept :
    (handleSearch initialState (.resolved ⟨404, "Not Found",
        some (.obj [("detail", .str "Not Found")]), none⟩)).error = some "Not Found" ∧
      "Not Found" ≠ userNotFound ∧
      (handleSearch initialState (.resolved ⟨404, "Not Found", none, none⟩)).error
        = some "User not found. Please check the GitHub username and try again." := by
  refine ⟨rfl, by decide, rfl⟩

/-- The path that does rewrite a 404: when `fetchGraph` keeps the generic
message `Server error: 404 <statusText>` and the status text holds none of the
phrases of the three earlier rules, the stored message is the user-not-found
sentence. -/
theorem handleSearch_404_generic_user_not_found (s : AppState) (r : Response)
    (hstatus : r.status = 404)
    (hmsg : errorMessage r = .str (serverErrorMessage r))
    (h1 : includes (toLowerCase r.statusText) "network" = false)
    (h2 : includes (toLowerCase r.statusText) "could not connect" = false)
    (h3 : includes (toLowerCase r.statusText) "no data" = false)
    (h4 : includes (toLowerCase r.statusText) "empty" = false)
    (h5 : includes (toLowerCase r.statusText) "invalid response" = false)
    (h6 : includes (toLowerCase r.statusText) "json" = false) :
    (handleSearch s (.resolved r)).error =
      some "User not found. Please check the GitHub username and try again." := by
  have hne := serverErrorMessage_ne_empty r
  have hfmt := formatErrorMessage_generic_404 r.statusText h1 h2 h3 h4 h5 h6
  rw [← serverErrorMessage_404 r hstatus] at hfmt
  simp only [handleSearch, fetchGraph_not_ok r (ok_false_of_404 r hstatus), hmsg, newError,
    jsToString, catchHandler_mkError _ hne, resolveSearch, caughtMessage]
  simp [mkError, hne, hfmt, userNotFound]

/-! ## C2: the `detail` field of an error body -/

/-- C2 (as stated, refuted): a body whose `detail` is the empty string gives the
message of its `message` field, and a body whose `detail` is the empty array
gives the fallback message of the outer `catch`; neither is the `detail`
value. -/
theorem c2_falsy_or_empty_detail_not_kept :
    fetchGraph (.resolved ⟨500, "Internal Server Error",
        some (.obj [("detail", .str ""), ("message", .str "boom")]), none⟩)
      = .error (mkError "boom") ∧
    fetchGraph (.resolved ⟨500, "Internal Server Error",
        some (.obj [("detail", .arr [])]), none⟩)
      = .error (mkError "An unexpected error occurred while fetching graph data.") ∧
    lookupLast "detail" [("detail", .str ""), ("message", .str "boom")] = some (.str "") ∧
    "boom" ≠ "" := by
  refine ⟨rfl, rfl, rfl, by decide⟩

theorem errorMessage_detail (r : Response) (kvs : List (String × JVal)) (d : JVal)
    (hjson : r.json = some (.obj kvs)) (hd : lookupLast "detail" kvs = some d)
    (ht : truthy d = true) : errorMessage r = d := by
  simp [errorMessage, hjson, getProp, hd, orElse, truthyOpt, ht, orDefault]

theorem catchHandler_cannotConvert :
    catchHandler ⟨"TypeError", cannotConvertMessage⟩ = ⟨"TypeError", cannotConvertMessage⟩ := by
  rfl

theorem catchHandler_newError (v : JVal) :
    catchHandler (newError v) =
      match jsToString v with
      | some m => if m = "" then mkError unexpectedMessage else mkError m
      | none => ⟨"TypeError", cannotConvertMessage⟩ := by
  unfold newError
  cases hconv : jsToString v with
  | none => exact catchHandler_cannotConvert
  | some m =>
    by_cases hempty : m = ""
    · subst hempty
      simp [catchHandler, mkError]
    · simp [catchHandler_mkError m hempty, hempty]

/-- C2 (amended): for every non-2xx response whose body parses as a JSON object
with a truthy `detail` (not `""`, `0`, `false` or `null`), whatever other
fields the body carries, the error thrown by `fetchGraph` is made from that
`detail`: its message is the string conversion of `detail`, which is `detail`
itself when it is a string. When the conversion is the empty string the
message is the fallback of the outer `catch`, and when the conversion throws
(an object with an own `toString` member) that `TypeError` is what
`fetchGraph` throws. -/
theorem fetchGraph_truthy_detail (r : Response) (kvs : List (String × JVal)) (d : JVal)
    (hok : r.ok = false) (hjson : r.json = some (.obj kvs))
    (hd : lookupLast "detail" kvs = some d) (ht : truthy d = true) :
    fetchGraph (.resolved r) = .error
        (match jsToString d with
          | some m => if m = "" then mkError unexpectedMessage else mkError m
          | none => ⟨"TypeError", cannotConvertMessage⟩) ∧
      (∀ s, d = .str s → fetchGraph (.resolved r) = .error (mkError s)) := by
  have hmsg := errorMessage_detail r kvs d hjson hd ht
  have hmain : fetchGraph (.resolved r) = .error
      (match jsToString d with
        | some m => if m = "" then mkError unexpectedMessage else mkError m
        | none => ⟨"TypeError", cannotConvertMessage⟩) := by
    rw [fetchGraph_not_ok r hok, hmsg, catchHandler_newError]
  refine ⟨hmain, ?_⟩
  intro s hs
  subst hs
  have hne : s ≠ "" := by simpa [truthy] using ht
  rw [hmain]
  simp [jsToString, hne]

/-- C2 (amended), at the body `{"detail":"Not Found","message":"other"}` of a
404. -/
theorem fetchGraph_truthy_detail_witness :
    fetchGraph (.resolved ⟨404, "Not Found",
        some (.obj [("detail", .str "Not Found"), ("message", .str "other")]), none⟩)
      = .error (mkError "Not Found") :=
  (fetchGraph_truthy_detail ⟨404, "Not Found",
      some (.obj [("detail", .str "Not Found"), ("message", .str "other")]), none⟩
    [("detail", .str "Not Found"), ("message", .str "other")] (.str "Not Found")
    rfl rfl rfl rfl).2 "Not Found" rfl

/-- The conversions of `new Error(detail)` at a number too large for plain
digits, at an array, and at an object that shadows `toString`. -/
theorem fetchGraph_detail_conversions :
    fetchGraph (.resolved ⟨422, "Unprocessable Entity",
        some (.obj [("detail", .num (10 ^ 21))]), none⟩) = .error (mkError "1e+21") ∧
    fetchGraph (.resolved ⟨422, "Unprocessable Entity",
        some (.obj [("detail", .arr [.obj [("loc", .str "path")], .null, .num 7])]), none⟩)
      = .error (mkError "[object Object],,7") ∧
    fetchGraph (.resolved ⟨422, "Unprocessable Entity",
        some (.obj [("detail", .obj [("toString", .num 1)])]), none⟩)
      = .error ⟨"TypeError", cannotConvertMessage⟩ := by
  exact ⟨rfl, rfl, rfl⟩

/-! ## C3: error bodies without `detail` -/

/-- C3 (as stated, refuted): the error body `{"foo":1}` parses as JSON and
carries none of the three fields; the thrown message is the generic string, not
the raw body text. -/
theorem c3_json_without_fields_gives_generic :
    fetchGraph (.resolved ⟨500, "Internal Server Error",
        some (.obj [("foo", .num 1)]), some "\x7b\"foo\":1\x7d"⟩)
      = .error (mkError "Server error: 500 Internal Server Error") ∧
    "Server error: 500 Internal Server Error" ≠ substring0 "\x7b\"foo\":1\x7d" 200 := by
  refine ⟨rfl, by decide⟩

theorem fetchGraph_string_message (r : Response) (m : String) (hok : r.ok = false)
    (hmsg : errorMessage r = .str m) (hne : m ≠ "") :
    fetchGraph (.resolved r) = .error (mkError m) := by
  rw [fetchGraph_not_ok r hok, hmsg]
  simp [newError, jsToString, catchHandler_mkError m hne]

/-- C3 (amended): for every non-2xx response whose body parses to a JSON value
other than `null` and has no truthy `detail`, the error thrown by `fetchGraph`
is made from the body's `message` if that is truthy, else from its `error` if
that is truthy (the message is the string conversion of that value, with the
fallback for an empty conversion and the `TypeError` of a throwing one), and
else its message is the generic `Server error: <status> <statusText>`,
whatever the body text is; so the body `{"foo":1}` yields the generic
string. -/
theorem fetchGraph_without_detail (r : Response) (hok : r.ok = false) :
    (∀ d v, r.json = some d → d ≠ .null → truthyOpt (getProp d "detail") = false →
        getProp d "message" = some v → truthy v = true →
        fetchGraph (.resolved r) = .error
          (match jsToString v with
            | some m => if m = "" then mkError unexpectedMessage else mkError m
            | none => ⟨"TypeError", cannotConvertMessage⟩)) ∧
    (∀ d v, r.json = some d → d ≠ .null → truthyOpt (getProp d "detail") = false →
        truthyOpt (getProp d "message") = false →
        getProp d "error" = some v → truthy v = true →
        fetchGraph (.resolved r) = .error
          (match jsToString v with
            | some m => if m = "" then mkError unexpectedMessage else mkError m
            | none => ⟨"TypeError", cannotConvertMessage⟩)) ∧
    (∀ d, r.json = some d → d ≠ .null → truthyOpt (getProp d "detail") = false →
        truthyOpt (getProp d "message") = false → truthyOpt (getProp d "error") = false →
        fetchGraph (.resolved r) = .error (mkError (serverErrorMessage r))) := by
  refine ⟨?_, ?_, ?_⟩
  · intro d v hjson hnull hdet hmsg hv
    rw [fetchGraph_not_ok r hok, ← catchHandler_newError]
    have : errorMessage r = v := by
      cases d <;>
        simp_all [errorMessage, orElse, truthyOpt, orDefault]
    rw [this]
  · intro d v hjson hnull hdet hmsg herr hv
    rw [fetchGraph_not_ok r hok, ← catchHandler_newError]
    have : errorMessage r = v := by
      cases d <;>
        simp_all [errorMessage, orElse, truthyOpt, orDefault]
    rw [this]
  · intro d hjson hnull hdet hmsg herr
    apply fetchGraph_string_message r _ hok _ (serverErrorMessage_ne_empty r)
    cases d <;>
      simp_all [errorMessage, orElse, truthyOpt, orDefault]

/-- C3 (amended), at a 500 whose body is `{"detail":"","error":"db down"}`. -/
theorem fetchGraph_without_detail_witness :
    fetchGraph (.resolved ⟨500, "Internal Server Error",
        some (.obj [("detail", .str ""), ("error", .str "db down")]), none⟩)
      = .error (mkError "db down") :=
  (fetchGraph_without_detail ⟨500, "Internal Server Error",
      some (.obj [("detail", .str ""), ("error", .str "db down")]), none⟩ rfl).2.1
    (.obj [("detail", .str ""), ("error", .str "db down")]) (.str "db down")
    rfl (by intro h; cases h) rfl rfl rfl rfl

theorem textFallback_generic (r : Response) :
    textFallback r = .str (serverErrorMessage r) := by
  unfold textFallback textAfterJson
  cases r.text with
  | none => rfl
  | some t =>
    by_cases ht : t = ""
    · subst ht
      rfl
    · split <;> simp_all

/-- The assignment of line 39 is never reached: once `response.json()` has
failed, or has delivered `null`, the thrown message is the generic string
whatever the body text is. -/
theorem fetchGraph_unparsed_body (r : Response) (hok : r.ok = false)
    (hjson : r.json = none ∨ r.json = some .null) :
    fetchGraph (.resolved r) = .error (mkError (serverErrorMessage r)) := by
  apply fetchGraph_string_message r _ hok _ (serverErrorMessage_ne_empty r)
  rcases hjson with hjson | hjson <;> simp [errorMessage, hjson, textFallback_generic]

/-! ## C4, C5: canonical bodies and the `edges` shape -/

theorem lengthIsZero_arr (xs : List JVal) : lengthIsZero (some (.arr xs)) = xs.isEmpty := by
  cases xs with
  | nil => rfl
  | cons x rest =>
    simp only [lengthIsZero, getProp, List.length_cons, List.isEmpty_cons]
    simp
    omega

theorem isBlank_arr (xs : List JVal) : isBlank (some (.arr xs)) = xs.isEmpty := by
  simp [isBlank, truthyOpt, truthy, lengthIsZero_arr]

theorem isEmpty_false_of_ne {xs : List JVal} (h : xs ≠ []) : xs.isEmpty = false := by
  cases xs with
  | nil => exact absurd rfl h
  | cons x rest => rfl

/-- C4 (as stated, refuted): the canonical body `{nodes: [], links: []}` with
two empty sequences is not returned unchanged; `fetchGraph` throws the
empty-graph error. -/
theorem c4_empty_canonical_body_fails :
    fetchGraph (.resolved ⟨200, "OK",
        some (.obj [("nodes", .arr []), ("links", .arr [])]), none⟩)
      = .error (mkError "Received empty graph data. No nodes or links found.") := by
  rfl

/-- C4 (amended): for every 2xx response whose parsed body is an object with
`nodes` a sequence `N` and `links` a sequence `L`, not both empty, `fetchGraph`
returns exactly `{nodes: N, links: L}`, and a 2xx response whose body is that
result is returned as the same structure again. -/
theorem fetchGraph_canonical (r : Response) (kvs : List (String × JVal)) (N L : List JVal)
    (hok : r.ok = true) (hjson : r.json = some (.obj kvs))
    (hn : lookupLast "nodes" kvs = some (.arr N))
    (hl : lookupLast "links" kvs = some (.arr L))
    (hne : ¬ (N = [] ∧ L = [])) :
    fetchGraph (.resolved r) = .ok ⟨.arr N, .arr L⟩ ∧
      ∀ r2 : Response, r2.ok = true →
        r2.json = some (.obj [("nodes", .arr N), ("links", .arr L)]) →
        fetchGraph (.resolved r2) = .ok ⟨.arr N, .arr L⟩ := by
  have key : ∀ (q : Response) (ms : List (String × JVal)), q.ok = true →
      q.json = some (.obj ms) → lookupLast "nodes" ms = some (.arr N) →
      lookupLast "links" ms = some (.arr L) →
      fetchGraph (.resolved q) = .ok ⟨.arr N, .arr L⟩ := by
    intro q ms hq hj h1 h2
    simp only [fetchGraph, tryBody, hq, hj, normalize, getProp, h1, h2, truthyOpt, truthy,
      isArray, isBlank_arr, orDefault]
    simp only [not_and] at hne
    by_cases hN : N = []
    · simp [hN, isBlank_arr, isEmpty_false_of_ne (hne hN)]
    · simp [isBlank_arr, isEmpty_false_of_ne hN]
  refine ⟨key r kvs hok hjson hn hl, ?_⟩
  intro r2 hok2 hjson2
  exact key r2 _ hok2 hjson2 rfl rfl

/-- C4 (amended), at the body of the spec's `octocat` scenario. -/
theorem fetchGraph_canonical_witness :
    fetchGraph (.resolved ⟨200, "OK",
        some (.obj [("nodes", .arr [.obj [("id", .str "octocat"), ("group", .num 0)]]),
          ("links", .arr [])]), none⟩)
      = .ok ⟨.arr [.obj [("id", .str "octocat"), ("group", .num 0)]], .arr []⟩ :=
  (fetchGraph_canonical ⟨200, "OK",
      some (.obj [("nodes", .arr [.obj [("id", .str "octocat"), ("group", .num 0)]]),
        ("links", .arr [])]), none⟩
    [("nodes", .arr [.obj [("id", .str "octocat"), ("group", .num 0)]]), ("links", .arr [])]
    [.obj [("id", .str "octocat"), ("group", .num 0)]] [] rfl rfl rfl rfl (by simp)).1

/-- C5: for every 2xx response whose parsed body is an object with `nodes` a
sequence `N` (possibly empty), no `links` member and `edges` a non-empty
sequence `E`, `fetchGraph` returns exactly `{nodes: N, links: E}`. -/
theorem fetchGraph_nodes_edges (r : Response) (kvs : List (String × JVal)) (N E : List JVal)
    (hok : r.ok = true) (hjson : r.json = some (.obj kvs))
    (hn : lookupLast "nodes" kvs = some (.arr N))
    (hl : lookupLast "links" kvs = none)
    (he : lookupLast "edges" kvs = some (.arr E))
    (hne : E ≠ []) :
    fetchGraph (.resolved r) = .ok ⟨.arr N, .arr E⟩ := by
  simp only [fetchGraph, tryBody, hok, hjson, normalize, getProp, hn, hl, he, truthyOpt, truthy,
    isArray, isBlank_arr, orDefault]
  simp [isBlank_arr, isEmpty_false_of_ne hne]

/-- C5, at a body with no nodes and one edge. -/
theorem fetchGraph_nodes_edges_witness :
    fetchGraph (.resolved ⟨200, "OK",
        some (.obj [("nodes", .arr []), ("edges", .arr [.str "a-b"])]), none⟩)
      = .ok ⟨.arr [], .arr [.str "a-b"]⟩ :=
  fetchGraph_nodes_edges ⟨200, "OK",
      some (.obj [("nodes", .arr []), ("edges", .arr [.str "a-b"])]), none⟩
    [("nodes", .arr []), ("edges", .arr [.str "a-b"])] [] [.str "a-b"]
    rfl rfl rfl rfl rfl (by simp)

/-! ## C6: the empty-result failures -/

theorem normalize_isSome (data : JVal) (h : truthy data = true) :
    ∃ nodes links, normalize data = some (nodes, links) := by
  cases data with
  | null => simp [truthy] at h
  | bool b => simp [normalize, getProp, truthyOpt, isArray]
  | num n => simp [normalize, getProp, truthyOpt, isArray]
  | str t =>
    simp only [normalize]
    split <;> [skip; split <;> [skip; split]] <;> simp
  | arr xs =>
    simp only [normalize]
    split <;> [skip; split <;> [skip; split]] <;> simp
  | obj kvs =>
    simp only [normalize]
    split <;> [skip; split <;> [skip; split]] <;> simp

theorem emptyArray_iff (data : JVal) :
    (isArray data && lengthIsZero (some data)) = true ↔ data = .arr [] := by
  cases data with
  | arr xs =>
    cases xs with
    | nil => simp [isArray, lengthIsZero_arr]
    | cons x rest => simp [isArray, lengthIsZero_arr]
  | _ => simp [isArray]

theorem not_emptyResult_ok (p : Payload) : ¬ EmptyResult (.ok p) := by
  intro h
  rcases h with h | h <;> cases h

/-- The outcome of a 2xx response with a parsed body, by the three tests of
lines 58 and 83. -/
theorem okBody_outcome (r : Response) (data : JVal)
    (hok : r.ok = true) (hjson : r.json = some data) :
    (EmptyResult (fetchGraph (.resolved r)) ↔
        (truthy data = false ∨ data = .arr [] ∨
          ∃ nodes links, normalize data = some (nodes, links) ∧
            (isBlank nodes && isBlank links) = true)) ∧
      (¬ (truthy data = false ∨ data = .arr [] ∨
          ∃ nodes links, normalize data = some (nodes, links) ∧
            (isBlank nodes && isBlank links) = true) →
        ∃ nodes links, normalize data = some (nodes, links) ∧
          fetchGraph (.resolved r)
            = .ok ⟨orDefault nodes (.arr []), orDefault links (.arr [])⟩) := by
  have hno : catchHandler (mkError noDataMessage) = mkError noDataMessage :=
    catchHandler_mkError _ (by decide)
  have hem : catchHandler (mkError emptyGraphMessage) = mkError emptyGraphMessage :=
    catchHandler_mkError _ (by decide)
  by_cases ht : truthy data = true
  · obtain ⟨nodes, links, hnorm⟩ := normalize_isSome data ht
    by_cases ha : (isArray data && lengthIsZero (some data)) = true
    · have hres : fetchGraph (.resolved r) = .error (mkError noDataMessage) := by
        simp only [fetchGraph, tryBody, hok, hjson, ha, hno]
        simp [hno]
      have harr := (emptyArray_iff data).1 ha
      exact ⟨⟨fun _ => Or.inr (Or.inl harr), fun _ => Or.inl hres⟩,
        fun hc => absurd (Or.inr (Or.inl harr)) hc⟩
    · have harr : ¬ data = .arr [] := fun h => ha ((emptyArray_iff data).2 h)
      by_cases hb : (isBlank nodes && isBlank links) = true
      · have hres : fetchGraph (.resolved r) = .error (mkError emptyGraphMessage) := by
          simp only [fetchGraph, tryBody, hok, hjson, ha, ht, hnorm, hb, hem]
          simp [hem]
        have hblank : ∃ nodes links, normalize data = some (nodes, links) ∧
            (isBlank nodes && isBlank links) = true := ⟨nodes, links, hnorm, hb⟩
        exact ⟨⟨fun _ => Or.inr (Or.inr hblank), fun _ => Or.inr hres⟩,
          fun hc => absurd (Or.inr (Or.inr hblank)) hc⟩
      · have hres : fetchGraph (.resolved r)
            = .ok ⟨orDefault nodes (.arr []), orDefault links (.arr [])⟩ := by
          simp only [fetchGraph, tryBody, hok, hjson, ha, ht, hnorm, hb]
          simp
        have hblank : ¬ ∃ nodes links, normalize data = some (nodes, links) ∧
            (isBlank nodes && isBlank links) = true := by
          rintro ⟨n2, l2, hn2, hb2⟩
          rw [hnorm] at hn2
          cases hn2
          exact hb hb2
        refine ⟨⟨fun h => ?_, fun h => ?_⟩, fun _ => ⟨nodes, links, hnorm, hres⟩⟩
        · rw [hres] at h
          exact absurd h (not_emptyResult_ok _)
        · rcases h with h | h | h
          · rw [ht] at h
            cases h
          · exact absurd h harr
          · exact absurd h hblank
  · have htf : truthy data = false := by simpa using ht
    have hres : fetchGraph (.resolved r) = .error (mkError noDataMessage) := by
      simp only [fetchGraph, tryBody, hok, hjson, htf, hno]
      simp [hno]
    exact ⟨⟨fun _ => Or.inl htf, fun _ => Or.inl hres⟩, fun hc => absurd (Or.inl htf) hc⟩

theorem field_eq (data : JVal) (k : String) (h : data ≠ .null) :
    field data k = if truthyOpt (getProp data k) then getProp data k else none := by
  cases data with
  | null => exact absurd rfl h
  | _ =>
    simp only [field]
    cases hg : getProp _ k with
    | none => simp [truthyOpt]
    | some v => cases hv : truthy v <;> simp [truthyOpt, hv]

theorem orDefault_truthy (a : Option JVal) : truthy (orDefault a (.arr [])) = true := by
  cases a with
  | none => rfl
  | some v =>
    simp only [orDefault]
    split_ifs with h
    · exact h
    · rfl

theorem truthyOpt_cases (a : Option JVal) :
    (∃ v, a = some v ∧ truthy v = true) ∨ truthyOpt a = false := by
  cases a with
  | none => exact Or.inr rfl
  | some v =>
    cases hv : truthy v
    · exact Or.inr hv
    · exact Or.inl ⟨v, rfl, hv⟩

theorem orDefault_falsy (a : Option JVal) (x : JVal) (h : truthyOpt a = false) :
    orDefault a x = x := by
  cases a with
  | none => rfl
  | some v =>
    have hv : truthy v = false := h
    simp [orDefault, hv]

theorem orElse_falsy (a b : Option JVal) (h : truthyOpt a = false) : orElse a b = b := by
  simp [orElse, h]

theorem orDefault_truthy_some (v x : JVal) (h : truthy v = true) :
    orDefault (some v) x = v := by
  simp [orDefault, h]

theorem field_truthy (data : JVal) (k : String) (v : JVal) (h : data ≠ .null)
    (hg : getProp data k = some v) (hv : truthy v = true) : field data k = some v := by
  rw [field_eq data k h, hg]
  simp [truthyOpt, hv]

theorem field_falsy (data : JVal) (k : String) (h : data ≠ .null)
    (hg : truthyOpt (getProp data k) = false) : field data k = none := by
  rw [field_eq data k h]
  simp [hg]

theorem firstField_cons (data : JVal) (k : String) (ks : List String) (h : data ≠ .null) :
    firstField data (k :: ks) = orDefault (getProp data k) (firstField data ks) := by
  rcases truthyOpt_cases (getProp data k) with ⟨v, hg, hv⟩ | hf
  · simp only [firstField, field_truthy data k v h hg hv, hg, orDefault_truthy_some v _ hv]
  · simp only [firstField, field_falsy data k h hf, orDefault_falsy _ _ hf]

theorem orDefault_orElse (a b : Option JVal) (x : JVal) :
    orDefault (orElse a b) x = orDefault a (orDefault b x) := by
  rcases truthyOpt_cases a with ⟨v, rfl, hv⟩ | hf
  · have ht : truthyOpt (some v) = true := hv
    simp only [orElse, ht, if_true, orDefault_truthy_some v _ hv]
  · rw [orElse_falsy a b hf, orDefault_falsy a _ hf]

theorem truthy_of_isArray (data : JVal) (h : isArray data = true) : truthy data = true := by
  cases data <;> simp_all [isArray, truthy]

/-- The normalization of lines 64-80 followed by the defaults of lines 90-91
is the normalization of the specification. -/
theorem specNormalize_of_normalize (data : JVal) (nodes links : Option JVal)
    (hnorm : normalize data = some (nodes, links)) :
    specNormalize data = ⟨orDefault nodes (.arr []), orDefault links (.arr [])⟩ := by
  have h : data ≠ .null := by
    intro hd
    subst hd
    simp [normalize] at hnorm
  have hn : normalize data = (
      if truthyOpt (getProp data "nodes") && truthyOpt (getProp data "links") then
        some (getProp data "nodes", getProp data "links")
      else if truthyOpt (getProp data "nodes") && truthyOpt (getProp data "edges") then
        some (getProp data "nodes", getProp data "edges")
      else if isArray data then some (some (.arr []), some data)
      else some (some (orDefault (orElse (getProp data "nodes") (getProp data "node_list"))
          (.arr [])),
        some (orDefault (orElse (orElse (getProp data "links") (getProp data "edges"))
          (getProp data "edge_list")) (.arr [])))) := by
    cases data with
    | null => exact absurd rfl h
    | _ => simp only [normalize]
  rw [hn] at hnorm
  have hfallback : ∀ (n l : Option JVal),
      (if isArray data then some (some (JVal.arr []), some data)
        else some (some (orDefault (orElse (getProp data "nodes") (getProp data "node_list"))
            (.arr [])),
          some (orDefault (orElse (orElse (getProp data "links") (getProp data "edges"))
            (getProp data "edge_list")) (.arr [])))) = some (n, l) →
      (if isArray data = true then (⟨.arr [], data⟩ : Payload)
        else ⟨firstField data ["nodes", "node_list"],
          firstField data ["links", "edges", "edge_list"]⟩)
        = ⟨orDefault n (.arr []), orDefault l (.arr [])⟩ := by
    intro n l hnl
    by_cases harr : isArray data = true
    · simp only [harr, if_true, Option.some.injEq, Prod.mk.injEq] at hnl ⊢
      obtain ⟨h1, h2⟩ := hnl
      subst h1
      subst h2
      rw [orDefault_truthy_some data _ (truthy_of_isArray data harr)]
      rfl
    · simp only [harr, Bool.false_eq_true, if_false, Option.some.injEq, Prod.mk.injEq] at hnl ⊢
      obtain ⟨h1, h2⟩ := hnl
      subst h1
      subst h2
      have e1 : ∀ o : Option JVal, orDefault (some (orDefault o (.arr []))) (.arr [])
          = orDefault o (.arr []) :=
        fun o => orDefault_truthy_some _ _ (orDefault_truthy o)
      have e2 : firstField data [] = .arr [] := rfl
      rw [e1, e1]
      simp only [firstField_cons data _ _ h, e2, orDefault_orElse]
  rcases truthyOpt_cases (getProp data "nodes") with ⟨va, ha, hva⟩ | hfa
  · have hta : truthyOpt (getProp data "nodes") = true := by rw [ha]; exact hva
    rcases truthyOpt_cases (getProp data "links") with ⟨vb, hb, hvb⟩ | hfb
    · have htb : truthyOpt (getProp data "links") = true := by rw [hb]; exact hvb
      simp only [hta, htb, Bool.and_self, if_true, Option.some.injEq, Prod.mk.injEq] at hnorm
      obtain ⟨h1, h2⟩ := hnorm
      subst h1
      subst h2
      simp only [specNormalize, field_truthy data _ va h ha hva, field_truthy data _ vb h hb hvb,
        ha, hb, orDefault_truthy_some va _ hva, orDefault_truthy_some vb _ hvb]
    · rcases truthyOpt_cases (getProp data "edges") with ⟨vc, hc, hvc⟩ | hfc
      · have htc : truthyOpt (getProp data "edges") = true := by rw [hc]; exact hvc
        simp only [hta, hfb, htc, Bool.and_false, Bool.and_self, Bool.false_eq_true, if_false,
          if_true, Option.some.injEq, Prod.mk.injEq] at hnorm
        obtain ⟨h1, h2⟩ := hnorm
        subst h1
        subst h2
        simp only [specNormalize, field_truthy data _ va h ha hva, field_falsy data _ h hfb,
          field_truthy data _ vc h hc hvc, ha, hc, orDefault_truthy_some va _ hva,
          orDefault_truthy_some vc _ hvc]
      · simp only [hta, hfb, hfc, Bool.and_false, Bool.false_eq_true, if_false] at hnorm
        simp only [specNormalize, field_truthy data _ va h ha hva, field_falsy data _ h hfb,
          field_falsy data _ h hfc]
        exact hfallback nodes links hnorm
  · simp only [hfa, Bool.false_and, Bool.false_eq_true, if_false] at hnorm
    simp only [specNormalize, field_falsy data _ h hfa]
    exact hfallback nodes links hnorm

theorem isEmptySeq_orDefault (a : Option JVal) :
    isEmptySeq (orDefault a (.arr [])) = isBlank a := by
  rcases truthyOpt_cases a with ⟨v, rfl, hv⟩ | hf
  · have ht : truthyOpt (some v) = true := hv
    simp [orDefault_truthy_some v _ hv, isEmptySeq, isBlank, ht]
  · rw [orDefault_falsy a _ hf]
    simp [isEmptySeq, isBlank, hf, lengthIsZero_arr]

theorem normalizedBothEmpty_of_falsy (data : JVal) (h : truthy data = false) :
    normalizedBothEmpty data = true := by
  cases data with
  | null => rfl
  | bool b =>
    have hb : b = false := by simpa [truthy] using h
    subst hb
    rfl
  | num n =>
    have hn : n = 0 := by simpa [truthy] using h
    subst hn
    rfl
  | str t =>
    have ht : t = "" := by simpa [truthy] using h
    subst ht
    rfl
  | arr xs => simp [truthy] at h
  | obj kvs => simp [truthy] at h

/-- C6: for every 2xx response whose body parses as JSON, `fetchGraph` fails
with an empty-result error exactly when the body is an empty array or the
normalized `nodes` and `links` are both empty, so in particular for `{}`; for
every other parsed body it returns the normalized payload. -/
theorem fetchGraph_emptyResult_iff (r : Response) (data : JVal)
    (hok : r.ok = true) (hjson : r.json = some data) :
    (EmptyResult (fetchGraph (.resolved r)) ↔
        (data = .arr [] ∨ normalizedBothEmpty data = true)) ∧
      (¬ (data = .arr [] ∨ normalizedBothEmpty data = true) →
        fetchGraph (.resolved r) = .ok (specNormalize data)) := by
  obtain ⟨hiff, hret⟩ := okBody_outcome r data hok hjson
  have hcond : (truthy data = false ∨ data = .arr [] ∨
        ∃ nodes links, normalize data = some (nodes, links) ∧
          (isBlank nodes && isBlank links) = true) ↔
      (data = .arr [] ∨ normalizedBothEmpty data = true) := by
    constructor
    · rintro (hf | harr | ⟨nodes, links, hnorm, hb⟩)
      · exact Or.inr (normalizedBothEmpty_of_falsy data hf)
      · exact Or.inl harr
      · right
        simp only [normalizedBothEmpty, specNormalize_of_normalize data nodes links hnorm,
          isEmptySeq_orDefault]
        exact hb
    · rintro (harr | hboth)
      · exact Or.inr (Or.inl harr)
      · by_cases ht : truthy data = true
        · obtain ⟨nodes, links, hnorm⟩ := normalize_isSome data ht
          refine Or.inr (Or.inr ⟨nodes, links, hnorm, ?_⟩)
          simp only [normalizedBothEmpty, specNormalize_of_normalize data nodes links hnorm,
            isEmptySeq_orDefault] at hboth
          exact hboth
        · exact Or.inl (by simpa using ht)
  refine ⟨hiff.trans hcond, ?_⟩
  intro hnot
  obtain ⟨nodes, links, hnorm, hres⟩ := hret (fun hc => hnot (hcond.1 hc))
  rw [hres, specNormalize_of_normalize data nodes links hnorm]

/-- C6, at the body `{}`. -/
theorem fetchGraph_emptyResult_iff_witness :
    EmptyResult (fetchGraph (.resolved ⟨200, "OK", some (.obj []), none⟩)) :=
  (fetchGraph_emptyResult_iff ⟨200, "OK", some (.obj []), none⟩ (.obj []) rfl rfl).1.2
    (Or.inr rfl)

/-! ## C7: the fields of a returned payload -/

/-- C7 (code defect): the 2xx body `{"nodes": 5, "links": [1]}` is returned as
`{nodes: 5, links: [1]}`, with `nodes` the number 5 and not a sequence, against
the documented return type `{nodes: Array, links: Array}` of `fetchGraph`: the
fields are tested for truthiness only. -/
theorem c7_non_sequence_nodes_returned :
    fetchGraph (.resolved ⟨200, "OK",
        some (.obj [("nodes", .num 5), ("links", .arr [.num 1])]), none⟩)
      = .ok ⟨.num 5, .arr [.num 1]⟩ ∧ isArray (.num 5) = false := by
  exact ⟨rfl, rfl⟩

theorem orDefault_source (a : Option JVal) :
    isArray (orDefault a (.arr [])) = true ∨
      ∃ v, a = some v ∧ truthy v = true ∧ orDefault a (.arr []) = v := by
  cases a with
  | none => exact Or.inl rfl
  | some v =>
    by_cases h : truthy v = true
    · exact Or.inr ⟨v, rfl, h, by simp [orDefault, h]⟩
    · left
      simp [orDefault, h, isArray]

theorem orElse_source (a b : Option JVal) (v : JVal) (h : orElse a b = some v) :
    a = some v ∨ b = some v := by
  unfold orElse at h
  split at h
  · exact Or.inl h
  · exact Or.inr h

theorem normalize_nodes (data : JVal) (nodes links : Option JVal)
    (h : normalize data = some (nodes, links)) :
    nodes = getProp data "nodes" ∨ nodes = some (.arr []) ∨
      nodes = some (orDefault (orElse (getProp data "nodes") (getProp data "node_list"))
        (.arr [])) := by
  cases data with
  | null => simp [normalize] at h
  | _ =>
    simp only [normalize] at h
    split_ifs at h <;> simp only [Option.some.injEq, Prod.mk.injEq] at h <;>
      obtain ⟨h1, _⟩ := h <;> simp [← h1]

theorem normalize_links (data : JVal) (nodes links : Option JVal)
    (h : normalize data = some (nodes, links)) :
    links = getProp data "links" ∨ links = getProp data "edges" ∨
      (links = some data ∧ isArray data = true) ∨
      links = some (orDefault (orElse (orElse (getProp data "links") (getProp data "edges"))
        (getProp data "edge_list")) (.arr [])) := by
  cases data with
  | null => simp [normalize] at h
  | _ =>
    simp only [normalize] at h
    split_ifs at h <;> simp only [Option.some.injEq, Prod.mk.injEq] at h <;>
      obtain ⟨_, h2⟩ := h <;> simp_all

theorem fetchGraph_ok_inv (f : FetchResult) (p : Payload) (h : fetchGraph f = .ok p) :
    ∃ r data nodes links, f = .resolved r ∧ r.ok = true ∧ r.json = some data ∧
      truthy data = true ∧ normalize data = some (nodes, links) ∧
      p = ⟨orDefault nodes (.arr []), orDefault links (.arr [])⟩ := by
  cases f with
  | rejected e => simp [fetchGraph] at h
  | resolved r =>
    by_cases hok : r.ok = true
    · cases hjson : r.json with
      | none => simp [fetchGraph, tryBody, hok, hjson] at h
      | some data =>
        obtain ⟨hiff, hret⟩ := okBody_outcome r data hok hjson
        have hne : ¬ EmptyResult (fetchGraph (.resolved r)) := by
          rw [h]
          exact not_emptyResult_ok p
        have hcond := fun hc => hne (hiff.2 hc)
        obtain ⟨nodes, links, hnorm, hres⟩ := hret hcond
        have ht : truthy data = true := by
          by_contra hc
          exact hcond (Or.inl (by simpa using hc))
        rw [hres] at h
        refine ⟨r, data, nodes, links, rfl, hok, hjson, ht, hnorm, ?_⟩
        cases h
        rfl
    · have hf : r.ok = false := by simpa using hok
      rw [fetchGraph_not_ok r hf] at h
      cases h

/-- What does hold of every returned payload: both fields are truthy, so
neither is `null` or absent; `nodes` is a sequence whenever every truthy
`nodes` or `node_list` member of the body is one, and `links` is a sequence
whenever every truthy `links`, `edges` or `edge_list` member of the body is
one. -/
theorem fetchGraph_payload_fields (f : FetchResult) (p : Payload)
    (h : fetchGraph f = .ok p) :
    truthy p.nodes = true ∧ truthy p.links = true ∧
      ∀ r data, f = .resolved r → r.json = some data →
        ((∀ k v, (k = "nodes" ∨ k = "node_list") → getProp data k = some v →
            truthy v = true → isArray v = true) → isArray p.nodes = true) ∧
        ((∀ k v, (k = "links" ∨ k = "edges" ∨ k = "edge_list") → getProp data k = some v →
            truthy v = true → isArray v = true) → isArray p.links = true) := by
  obtain ⟨r, data, nodes, links, hf, _, hjson, ht, hnorm, hp⟩ := fetchGraph_ok_inv f p h
  subst hp
  refine ⟨orDefault_truthy nodes, orDefault_truthy links, ?_⟩
  intro r2 data2 hf2 hjson2
  rw [hf] at hf2
  cases hf2
  rw [hjson] at hjson2
  cases hjson2
  constructor
  · intro hall
    show isArray (orDefault nodes (.arr [])) = true
    rcases orDefault_source nodes with harr | ⟨v, hv, htv, hval⟩
    · exact harr
    · rw [hval]
      rcases normalize_nodes data nodes links hnorm with hn | hn | hn
      · exact hall "nodes" v (Or.inl rfl) (by rw [← hn, hv]) htv
      · rw [hn] at hv
        cases hv
        rfl
      · rw [hn] at hv
        cases hv
        rcases orDefault_source (orElse (getProp data "nodes") (getProp data "node_list"))
          with h1 | ⟨w, hw, htw, hwv⟩
        · exact h1
        · rw [hwv]
          rcases orElse_source _ _ w hw with h2 | h2
          · exact hall "nodes" w (Or.inl rfl) h2 htw
          · exact hall "node_list" w (Or.inr rfl) h2 htw
  · intro hall
    show isArray (orDefault links (.arr [])) = true
    rcases orDefault_source links with harr | ⟨v, hv, htv, hval⟩
    · exact harr
    · rw [hval]
      rcases normalize_links data nodes links hnorm with hl | hl | ⟨hl, hda⟩ | hl
      · exact hall "links" v (Or.inl rfl) (by rw [← hl, hv]) htv
      · exact hall "edges" v (Or.inr (Or.inl rfl)) (by rw [← hl, hv]) htv
      · rw [hl] at hv
        cases hv
        exact hda
      · rw [hl] at hv
        cases hv
        rcases orDefault_source (orElse (orElse (getProp data "links") (getProp data "edges"))
          (getProp data "edge_list")) with h1 | ⟨w, hw, htw, hwv⟩
        · exact h1
        · rw [hwv]
          rcases orElse_source _ _ w hw with h2 | h2
          · rcases orElse_source _ _ w h2 with h3 | h3
            · exact hall "links" w (Or.inl rfl) h3 htw
            · exact hall "edges" w (Or.inr (Or.inl rfl)) h3 htw
          · exact hall "edge_list" w (Or.inr (Or.inr rfl)) h2 htw

/-! ## C8: the priority order of `formatErrorMessage` -/

theorem formatErrorMessage_eq_specFormat (m : String) (hm : m ≠ "") :
    formatErrorMessage m = specFormat m := by
  simp only [formatErrorMessage, specFormat, specRules, Rule.fires, List.find?, List.any,
    if_neg hm, Bool.or_false, Bool.or_assoc]
  generalize (includes (toLowerCase m) "network" ||
    includes (toLowerCase m) "could not connect") = b1
  generalize (includes (toLowerCase m) "no data" || includes (toLowerCase m) "empty") = b2
  generalize (includes (toLowerCase m) "invalid response" ||
    includes (toLowerCase m) "json") = b3
  generalize (includes (toLowerCase m) "server error" ||
    (includes (toLowerCase m) "500" || includes (toLowerCase m) "404")) = b4
  generalize (includes (toLowerCase m) "rate limit" || includes (toLowerCase m) "429") = b5
  generalize (includes (toLowerCase m) "github" || includes (toLowerCase m) "api") = b6
  cases b1 <;> cases b2 <;> cases b3 <;> cases b4 <;> cases b5 <;> cases b6 <;>
    simp
  split_ifs <;> first | rfl | omega

theorem takeUnits_spec (l : List Char) :
    ∀ n, n ≤ unitCount l →
      (∃ pre post, l = pre ++ post ∧ unitCount pre = n ∧ takeUnits n l = pre) ∨
      (∃ pre c post, l = pre ++ c :: post ∧ unitCount pre + 1 = n ∧ unitsOf c = 2 ∧
        takeUnits n l = pre ++ [loneHalf]) := by
  induction l with
  | nil =>
    intro n hn
    have h0 : n = 0 := by simpa [unitCount] using hn
    subst h0
    exact Or.inl ⟨[], [], rfl, rfl, rfl⟩
  | cons c cs ih =>
    intro n hn
    cases n with
    | zero => exact Or.inl ⟨[], c :: cs, rfl, rfl, rfl⟩
    | succ k =>
      by_cases hc : c.toNat < 0x10000
      · have hu : unitsOf c = 1 := by simp [unitsOf, hc]
        have hk : k ≤ unitCount cs := by
          simp only [unitCount, hu] at hn
          omega
        have ht : takeUnits (k + 1) (c :: cs) = c :: takeUnits k cs := by
          show (if c.toNat < 0x10000 then c :: takeUnits k cs
            else if k = 0 then [loneHalf] else c :: takeUnits (k - 1) cs) = _
          rw [if_pos hc]
        rcases ih k hk with ⟨pre, post, hl, hcount, htake⟩ | ⟨pre, d, post, hl, hcount, hd, htake⟩
        · refine Or.inl ⟨c :: pre, post, by rw [hl]; rfl, ?_, by rw [ht, htake]⟩
          simp only [unitCount, hu, hcount]
          omega
        · refine Or.inr ⟨c :: pre, d, post, by rw [hl]; rfl, ?_, hd, by rw [ht, htake]; rfl⟩
          simp only [unitCount, hu]
          omega
      · have hu : unitsOf c = 2 := by simp [unitsOf, hc]
        cases k with
        | zero =>
          refine Or.inr ⟨[], c, cs, rfl, rfl, hu, ?_⟩
          show (if c.toNat < 0x10000 then c :: takeUnits 0 cs
            else if 0 = 0 then [loneHalf] else c :: takeUnits (0 - 1) cs) = _
          rw [if_neg hc]
          rfl
        | succ j =>
          have hj : j ≤ unitCount cs := by
            simp only [unitCount, hu] at hn
            omega
          have ht : takeUnits (j + 1 + 1) (c :: cs) = c :: takeUnits j cs := by
            show (if c.toNat < 0x10000 then c :: takeUnits (j + 1) cs
              else if j + 1 = 0 then [loneHalf] else c :: takeUnits (j + 1 - 1) cs) = _
            rw [if_neg hc, if_neg (Nat.succ_ne_zero j)]
            rfl
          rcases ih j hj with ⟨pre, post, hl, hcount, htake⟩ |
            ⟨pre, d, post, hl, hcount, hd, htake⟩
          · refine Or.inl ⟨c :: pre, post, by rw [hl]; rfl, ?_, by rw [ht, htake]⟩
            simp only [unitCount, hu, hcount]
            omega
          · refine Or.inr ⟨c :: pre, d, post, by rw [hl]; rfl, ?_, hd,
              by rw [ht, htake]; rfl⟩
            simp only [unitCount, hu]
            omega

/-- C8: for every non-empty message `m`, `formatErrorMessage m` is the sentence
of the first rule, in the order network, no-data, invalid-response,
server-error (user-not-found when `m` contains `404`), rate-limit, GitHub/API,
one of whose phrases occurs in `m` case-insensitively, whatever later rules
also fire; when no rule fires it is `m` itself if `m` has at most 100
characters (UTF-16 code units, as JavaScript counts them) and otherwise the
first 100 of them followed by `...`, where a two-unit character cut at the 100th
unit leaves its lone first half. -/
theorem formatErrorMessage_priority (m : String) (hm : m ≠ "") :
    (∀ (earlier later : List Rule) (r : Rule), specRules = earlier ++ r :: later →
        r.fires m = true → (∀ q ∈ earlier, q.fires m = false) →
        formatErrorMessage m = r.sentence m) ∧
      ((∀ q ∈ specRules, q.fires m = false) →
        (utf16Length m ≤ 100 → formatErrorMessage m = m) ∧
        (100 < utf16Length m →
          (∃ pre post, m.data = pre ++ post ∧ unitCount pre = 100 ∧
            (formatErrorMessage m).data = pre ++ ['.', '.', '.']) ∨
          (∃ pre c post, m.data = pre ++ c :: post ∧ unitCount pre = 99 ∧ unitsOf c = 2 ∧
            (formatErrorMessage m).data = pre ++ loneHalf :: ['.', '.', '.']))) := by
  rw [formatErrorMessage_eq_specFormat m hm]
  constructor
  · intro earlier later r hsplit hfire hearlier
    have hfind : specRules.find? (fun q => q.fires m) = some r := by
      rw [hsplit, List.find?_append]
      have hnone : earlier.find? (fun q => q.fires m) = none := by
        rw [List.find?_eq_none]
        intro q hq
        simp [hearlier q hq]
      rw [hnone]
      simp [List.find?, hfire]
    simp only [specFormat, hfind]
  · intro hall
    have hfind : specRules.find? (fun q => q.fires m) = none := by
      rw [List.find?_eq_none]
      intro q hq
      simp [hall q hq]
    simp only [specFormat, hfind]
    constructor
    · intro hshort
      simp [hshort]
    · intro hlong
      have hnot : ¬ utf16Length m ≤ 100 := by omega
      have hdata : (substring0 m 100 ++ "...").data
          = takeUnits 100 m.data ++ ['.', '.', '.'] := by
        simp [substring0]
      simp only [if_neg hnot, hdata]
      rcases takeUnits_spec m.data 100 (by unfold utf16Length at hlong; omega) with
        ⟨pre, post, hl, hcount, htake⟩ | ⟨pre, c, post, hl, hcount, hc, htake⟩
      · exact Or.inl ⟨pre, post, hl, hcount, by rw [htake]⟩
      · refine Or.inr ⟨pre, c, post, hl, by omega, hc, ?_⟩
        rw [htake]
        simp

/-- C8, at a message that carries phrases of rules 1, 4 and 6: rule 1 wins. -/
theorem formatErrorMessage_priority_witness :
    formatErrorMessage "Network: GitHub API answered 404" = unableToConnect :=
  (formatErrorMessage_priority "Network: GitHub API answered 404" (by decide)).1
    [] (specRules.drop 1) ⟨["network", "could not connect"], fun _ => unableToConnect⟩
    rfl (by decide) (by simp)

/-- The cut counts UTF-16 code units: a message of 60 characters of two units
each is longer than 100 and keeps its first 50 characters. -/
theorem formatErrorMessage_two_unit_characters :
    formatErrorMessage ⟨List.replicate 60 (Char.ofNat 0x1F600)⟩
      = ⟨List.replicate 50 (Char.ofNat 0x1F600) ++ ['.', '.', '.']⟩ := by
  decide

/-! ## C9: payload and error never together -/

theorem step_exclusive (s t : AppState) (h : Step s t) :
    ¬ (t.graphData.isSome = true ∧ t.error.isSome = true) := by
  cases h with
  | start => simp [startSearch]
  | success data => simp [resolveSearch]
  | failure err => simp [resolveSearch]

/-- C9: in every state reachable from the initial `App` state by `handleSearch`
steps (start of a search, success, failure) `graphData` and `error` are never
both non-null; and for every `graphData`, `error` and `loading` the graph view
never renders the force graph together with the error overlay. -/
theorem graphData_error_exclusive :
    (∀ s, Reachable s → ¬ (s.graphData.isSome = true ∧ s.error.isSome = true)) ∧
      (∀ coerced graphData error loading,
        ¬ (showsGraph coerced graphData error loading = true ∧
            showsError graphData error loading = true)) := by
  constructor
  · intro s hs
    cases hs with
    | init => simp [initialState]
    | step _ hstep => exact step_exclusive _ _ hstep
  · intro coerced graphData error loading
    cases graphData with
    | none => simp [showsGraph]
    | some g =>
      cases hE : errorSet error <;> simp [showsGraph, showsError, hE]

/-- C9, at the state after a failed first search. -/
theorem graphData_error_exclusive_witness :
    ¬ ((handleSearch initialState (.rejected ⟨"TypeError", "Failed to fetch"⟩)).graphData.isSome
          = true ∧
        (handleSearch initialState (.rejected ⟨"TypeError", "Failed to fetch"⟩)).error.isSome
          = true) :=
  graphData_error_exclusive.1 _
    (Reachable.step (Reachable.step Reachable.init (Step.start initialState))
      (Step.failure (startSearch initialState)
        (catchHandler ⟨"TypeError", "Failed to fetch"⟩)))

/-! ## C10: the guard of `handleSubmit` -/

theorem dropWhile_all (xs : List Char) (h : ∀ c ∈ xs, isTrimChar c = true) :
    xs.dropWhile isTrimChar = [] := by
  induction xs with
  | nil => rfl
  | cons x rest ih =>
    have hx := h x (List.mem_cons_self x rest)
    simp only [List.dropWhile, hx]
    exact ih (fun c hc => h c (List.mem_cons_of_mem x hc))

/-- C10: a username whose trimmed form is empty (in particular one made of
white space only), or any username submitted while `loading` is true, makes
`handleSubmit` call `onSearch` not at all and leaves the orchestrator state
unchanged; in every other case `onSearch` is called exactly once, with the
trimmed username. -/
theorem handleSubmit_guarded (s : AppState) (username : String) :
    ((trim username = "" ∨ s.loading = true) →
        handleSubmit username s.loading = [] ∧ submit s username = s) ∧
      (¬ (trim username = "" ∨ s.loading = true) →
        handleSubmit username s.loading = [trim username]) ∧
      ((∀ c ∈ username.data, isTrimChar c = true) → trim username = "") := by
  refine ⟨?_, ?_, ?_⟩
  · intro h
    have hcalls : handleSubmit username s.loading = [] := by
      rcases h with h | h <;> simp [handleSubmit, h]
    exact ⟨hcalls, by simp [submit, hcalls]⟩
  · intro h
    simp only [not_or] at h
    obtain ⟨h1, h2⟩ := h
    have h2f : s.loading = false := by simpa using h2
    simp [handleSubmit, h1, h2f]
  · intro h
    apply string_eq_of_data
    simp [trim, dropWhile_all username.data h]

/-- C10, at a blank username in the idle state. -/
theorem handleSubmit_guarded_witness :
    handleSubmit "  \t " initialState.loading = [] ∧ submit initialState "  \t " = initialState :=
  (handleSubmit_guarded initialState "  \t ").1 (Or.inl (by decide))

/-! ## C11: transport failures -/

/-- C11 (code defect): a transport failure that WebKit reports with the
`TypeError` message `Load failed` is not turned into the network error: the
handler for fetch failures looks for `fetch` in the message, finds none,
and the error is rethrown as is, so the stored message is `Load failed`; the
same failure reported as `Failed to fetch` is stored as the unable-to-connect
sentence. -/
theorem c11_load_failed_not_network :
    fetchGraph (.rejected ⟨"TypeError", "Load failed"⟩) = .error ⟨"TypeError", "Load failed"⟩ ∧
      (handleSearch initialState (.rejected ⟨"TypeError", "Load failed"⟩)).error
        = some "Load failed" ∧
      "Load failed" ≠ unableToConnect ∧
      (handleSearch initialState (.rejected ⟨"TypeError", "Failed to fetch"⟩)).error
        = some "Unable to connect to the server. Please check if the backend is running on port 8000." := by
  refine ⟨rfl, rfl, by decide, rfl⟩

theorem catchHandler_fetch_typeError (msg : String) (h : includes msg "fetch" = true) :
    catchHandler ⟨"TypeError", msg⟩ = mkError networkErrorMessage := by
  simp [catchHandler, h]

/-- The path that does handle a failed request: a rejection with a `TypeError`
whose message contains `fetch` makes `fetchGraph` fail with the network error,
and the message `handleSearch` stores is the unable-to-connect sentence, which
mentions the inability to connect and that the backend should be running. -/
theorem handleSearch_fetch_failure (s : AppState) (msg : String)
    (h : includes msg "fetch" = true) :
    fetchGraph (.rejected ⟨"TypeError", msg⟩) = .error (mkError networkErrorMessage) ∧
      (handleSearch s (.rejected ⟨"TypeError", msg⟩)).error
        = some "Unable to connect to the server. Please check if the backend is running on port 8000." ∧
      includes unableToConnect "Unable to connect" = true ∧
      includes unableToConnect "check if the backend is running" = true := by
  have hfetch : fetchGraph (.rejected ⟨"TypeError", msg⟩)
      = .error (mkError networkErrorMessage) := by
    simp only [fetchGraph, catchHandler_fetch_typeError msg h]
  refine ⟨hfetch, ?_, by decide, by decide⟩
  have hfmt : formatErrorMessage (caughtMessage (mkError networkErrorMessage))
      = unableToConnect := by decide
  simp only [handleSearch, hfetch, resolveSearch, hfmt]
  rfl

/-! ## C12: the four views of the graph view -/

/-- C12 (as stated, refuted): the 2xx body `{"nodes": 5, "links": [1]}` leaves
the state with a payload whose `nodes` is the number 5, neither empty nor
missing, with no error and not loading; none of the four views is rendered
there. -/
theorem c12_number_nodes_shows_nothing :
    handleSearch initialState (.resolved ⟨200, "OK",
        some (.obj [("nodes", .num 5), ("links", .arr [.num 1])]), none⟩)
      = ⟨some ⟨.num 5, .arr [.num 1]⟩, none, false, true⟩ ∧
    nodesEmptyOrMissing (.num 5) = false ∧
    viewsShown (fun _ => false) (some ⟨.num 5, .arr [.num 1]⟩) none false = 0 ∧
    viewsShown (fun _ => true) (some ⟨.num 5, .arr [.num 1]⟩) none false = 0 := by
  exact ⟨rfl, rfl, rfl, rfl⟩

theorem showsGraph_some (coerced : JVal → Bool) (g : Payload) (error : Option String)
    (loading : Bool) :
    showsGraph coerced (some g) error loading
      = (!loading && !errorSet error && nodesDrawable coerced g.nodes) := by
  simp [showsGraph, nodesDrawable, Bool.and_assoc]

theorem nodesDrawable_of_emptyOrMissing (coerced : JVal → Bool) (v : JVal)
    (h : nodesEmptyOrMissing v = true) : nodesDrawable coerced v = false := by
  cases v with
  | null => simp [nodesDrawable, truthy]
  | arr xs =>
    cases xs with
    | nil => simp [nodesDrawable, lengthPositive, getProp]
    | cons x rest => simp [nodesEmptyOrMissing] at h
  | bool b => simp [nodesEmptyOrMissing] at h
  | num n => simp [nodesEmptyOrMissing] at h
  | str t => simp [nodesEmptyOrMissing] at h
  | obj kvs => simp [nodesEmptyOrMissing] at h

theorem fetchGraph_raw_array (r : Response) (A : List JVal) (hok : r.ok = true)
    (hjson : r.json = some (.arr A)) (hne : A ≠ []) :
    fetchGraph (.resolved r) = .ok ⟨.arr [], .arr A⟩ := by
  have hA := isEmpty_false_of_ne hne
  simp only [fetchGraph, tryBody, hok, hjson, normalize, getProp, truthyOpt, truthy,
    isArray, lengthIsZero_arr, hA]
  simp [isBlank_arr, hA, orDefault, truthy]

theorem viewsShown_cases (coerced : JVal → Bool) (graphData : Option Payload)
    (error : Option String) (loading : Bool) :
    (viewsShown coerced graphData error loading = 0 ↔
        ((∃ g, graphData = some g ∧ nodesDrawable coerced g.nodes = false) ∧
          errorSet error = false ∧ loading = false)) ∧
      (viewsShown coerced graphData error loading ≠ 0 →
        viewsShown coerced graphData error loading = 1) := by
  cases graphData with
  | none =>
    cases loading <;> cases hE : errorSet error <;>
      simp [viewsShown, showsLoading, showsError, showsPlaceholder, showsGraph, hE]
  | some g =>
    cases loading <;> cases hE : errorSet error <;> cases hD : nodesDrawable coerced g.nodes <;>
      simp [viewsShown, showsLoading, showsError, showsPlaceholder, showsGraph_some, hE, hD]

/-- C12 (amended): for every `graphData`, `error` and `loading` the four views
(loading overlay, error overlay, placeholder, force graph) are pairwise
exclusive, and exactly one is rendered unless `graphData` is non-null with a
`nodes` that fails the test `nodes && nodes.length > 0` (empty, missing, or a
value without a positive length), `error` is unset and `loading` is false, in
which case none is rendered. That case is reachable: for a 2xx body that is a
raw non-empty array `A`, `fetchGraph` returns `{nodes: [], links: A}` and the
state after the search renders none of the four views. -/
theorem graphView_views (coerced : JVal → Bool) (graphData : Option Payload)
    (error : Option String) (loading : Bool) :
    (¬ (showsLoading graphData error loading = true ∧ showsError graphData error loading = true) ∧
      ¬ (showsLoading graphData error loading = true ∧
          showsPlaceholder graphData error loading = true) ∧
      ¬ (showsLoading graphData error loading = true ∧
          showsGraph coerced graphData error loading = true) ∧
      ¬ (showsError graphData error loading = true ∧
          showsPlaceholder graphData error loading = true) ∧
      ¬ (showsError graphData error loading = true ∧
          showsGraph coerced graphData error loading = true) ∧
      ¬ (showsPlaceholder graphData error loading = true ∧
          showsGraph coerced graphData error loading = true)) ∧
    (viewsShown coerced graphData error loading = 0 ↔
        ((∃ g, graphData = some g ∧ nodesDrawable coerced g.nodes = false) ∧
          errorSet error = false ∧ loading = false)) ∧
    (viewsShown coerced graphData error loading ≠ 0 →
        viewsShown coerced graphData error loading = 1) ∧
    (∀ g, graphData = some g → nodesEmptyOrMissing g.nodes = true → error = none →
        loading = false → viewsShown coerced graphData error loading = 0) ∧
    (∀ (s : AppState) (r : Response) (A : List JVal), r.ok = true →
        r.json = some (.arr A) → A ≠ [] →
        fetchGraph (.resolved r) = .ok ⟨.arr [], .arr A⟩ ∧
          handleSearch s (.resolved r) = ⟨some ⟨.arr [], .arr A⟩, none, false, true⟩ ∧
          viewsShown coerced (some ⟨.arr [], .arr A⟩) none false = 0) := by
  obtain ⟨hzero, hone⟩ := viewsShown_cases coerced graphData error loading
  refine ⟨?_, hzero, hone, ?_, ?_⟩
  · cases graphData with
    | none =>
      cases loading <;> cases hE : errorSet error <;>
        simp [showsLoading, showsError, showsPlaceholder, showsGraph, hE]
    | some g =>
      cases loading <;> cases hE : errorSet error <;>
        simp [showsLoading, showsError, showsPlaceholder, showsGraph_some, hE]
  · intro g hg hnodes herr hload
    apply hzero.2
    refine ⟨⟨g, hg, nodesDrawable_of_emptyOrMissing coerced g.nodes hnodes⟩, ?_, hload⟩
    rw [herr]
    rfl
  · intro s r A hok hjson hne
    have hres := fetchGraph_raw_array r A hok hjson hne
    refine ⟨hres, ?_, ?_⟩
    · simp only [handleSearch, hres, resolveSearch, startSearch]
    · exact (viewsShown_cases coerced (some ⟨.arr [], .arr A⟩) none false).1.2
        ⟨⟨_, rfl, nodesDrawable_of_emptyOrMissing coerced (.arr []) rfl⟩, rfl, rfl⟩

/-- C12 (amended), at the raw array body `[1]` of a first search. -/
theorem graphView_views_witness :
    fetchGraph (.resolved ⟨200, "OK", some (.arr [.num 1]), none⟩)
        = .ok ⟨.arr [], .arr [.num 1]⟩ ∧
      handleSearch initialState (.resolved ⟨200, "OK", some (.arr [.num 1]), none⟩)
        = ⟨some ⟨.arr [], .arr [.num 1]⟩, none, false, true⟩ ∧
      viewsShown (fun _ => false) (some ⟨.arr [], .arr [.num 1]⟩) none false = 0 :=
  (graphView_views (fun _ => false) none none false).2.2.2.2 initialState
    ⟨200, "OK", some (.arr [.num 1]), none⟩ [.num 1] rfl rfl (by simp)

end GraphApp
